import Mathlib

/-!
Shallow embedding of the OpenChatMobile relay server (`backend/server.js`)
and proofs about its streaming relay, connection registry and HTTP API layer.

Modelling conventions:
* JavaScript strings are modelled as Lean `String` (a character list); the
  difference between UTF-16 code units and code points is irrelevant to the
  properties proved here.
* `JSON.parse` on an upstream stream payload, together with the subsequent
  access of its `content` field, is abstracted as an oracle
  `jp : String → Option (Option String)`: `none` means parsing throws,
  `some none` means the payload parses but carries no `content` field (or a
  non-truthy one), `some (some c)` means the `content` field holds the
  string `c`.  JavaScript truthiness of a string is the test `c ≠ ""`.
* Fallible filesystem and network operations are modelled with `Except`.
* The relay runs on a single-threaded event loop; each message handler
  invocation is a pure function from its inputs to the list of frames it
  sends on the originating connection.
-/

/-- Frames the relay sends to a browser connection (the server→client half
of the WebSocket protocol of `server.js`). -/
inductive WsEvent where
  | info (message : String)
  | token (t : String)
  | done
  | error (message : String)
  | ping (timestamp : Nat)
deriving DecidableEq, Repr

/-- Model of the JavaScript split-on-newline used on each stream chunk
(server.js:204), at the character-list level: splits on every newline
character, keeping empty segments. -/
def splitNl : List Char → List (List Char)
  | [] => [[]]
  | c :: cs =>
    match splitNl cs with
    | [] => [[]]
    | l :: ls => if c = '\n' then [] :: l :: ls else (c :: l) :: ls

/-- Model of the split-on-newline of server.js:204 on strings. -/
def jsSplitNewline (s : String) : List String :=
  (splitNl s.data).map String.mk

/-- Model of `line.startsWith(pre)` (server.js:205). -/
def jsStartsWith (s pre : String) : Bool :=
  s.data.take pre.data.length = pre.data

/-- Model of `s.substring(n)` (server.js:206). -/
def jsSubstringFrom (s : String) (n : Nat) : String :=
  String.mk (s.data.drop n)

/-- Model of `s.substring(0, n)` (server.js:325). -/
def jsSubstringTo (s : String) (n : Nat) : String :=
  String.mk (s.data.take n)

/-- Model of `s.endsWith(t)` (server.js:343). -/
def jsEndsWith (s t : String) : Bool :=
  s.data.drop (s.data.length - t.data.length) = t.data

/-- Handling of one stripped `data:` payload in the stream loop
(server.js:207-223): the sentinel `[DONE]` sends a `done` frame; otherwise
the payload is parsed and, when it carries truthy `content`, a `token`
frame is sent; a parse failure is logged and nothing is sent. -/
def handleDataPayload (jp : String → Option (Option String)) (dataStr : String) : List WsEvent :=
  if dataStr = "[DONE]" then [WsEvent.done]
  else
    match jp dataStr with
    | none => []
    | some none => []
    | some (some c) => if c = "" then [] else [WsEvent.token c]

/-- Handling of one line of a chunk (server.js:204-225): only lines that
start with the marker `data: ` are considered; the first 6 characters are
stripped and the payload handled. -/
def handleLine (jp : String → Option (Option String)) (line : String) : List WsEvent :=
  if jsStartsWith line "data: " then handleDataPayload jp (jsSubstringFrom line 6) else []

/-- Frames sent while processing a list of lines, in order. -/
def streamLines (jp : String → Option (Option String)) (lines : List String) : List WsEvent :=
  (lines.map (handleLine jp)).flatten

/-- Frames sent for one upstream chunk: the chunk is split on newlines and
each line handled in order by the forEach of server.js:204. -/
def handleChunk (jp : String → Option (Option String)) (chunk : String) : List WsEvent :=
  streamLines jp (jsSplitNewline chunk)

/-- Frames sent by the per-message stream loop (server.js:197-226) over a
whole sequence of upstream chunks, in arrival order. -/
def streamChunks (jp : String → Option (Option String)) (chunks : List String) : List WsEvent :=
  (chunks.map (handleChunk jp)).flatten

/-- All lines of a chunk sequence, in processing order. -/
def allLines (chunks : List String) : List String :=
  (chunks.map jsSplitNewline).flatten

/-- The stripped payloads of the `data:` lines of a line sequence, in
processing order. -/
def linePayloads (lines : List String) : List String :=
  (lines.filter (fun l => jsStartsWith l "data: ")).map (fun l => jsSubstringFrom l 6)

/-- The stripped payloads of the `data:` lines of a chunk sequence, in
processing order. -/
def streamPayloads (chunks : List String) : List String :=
  linePayloads (allLines chunks)

/-- Frames produced by a (stripped) payload sequence. -/
def payloadEvents (jp : String → Option (Option String)) (ps : List String) : List WsEvent :=
  (ps.map (handleDataPayload jp)).flatten

/-- The truthy `content` of a non-sentinel payload, when the payload parses
and carries one. -/
def contentOf (jp : String → Option (Option String)) (p : String) : Option String :=
  match jp p with
  | some (some c) => if c = "" then none else some c
  | _ => none

/-- The texts of the `token` frames of an event list, in order. -/
def tokensOf : List WsEvent → List String
  | [] => []
  | WsEvent.token t :: rest => t :: tokensOf rest
  | WsEvent.info _ :: rest => tokensOf rest
  | WsEvent.done :: rest => tokensOf rest
  | WsEvent.error _ :: rest => tokensOf rest
  | WsEvent.ping _ :: rest => tokensOf rest

/-- Body of the streaming/non-streaming completion request the relay sends
to the inference process (server.js:184-189 and 287-292). -/
structure CompletionRequest where
  prompt : String
  n_predict : Nat
  temperature : ℚ
  stream : Bool
deriving DecidableEq, Repr

/-- A successfully `JSON.parse`d client WebSocket message: its `type` field
and the fields the `chat` branch reads.  Absent fields are `none` (for
`message`, JavaScript `undefined` stringifies away; the relay only ever
reads it on `chat` messages, which the frontend sends with a string). -/
structure ClientMsg where
  type : String
  message : String := ""
  maxTokens : Option Nat := none
  temperature : Option ℚ := none
deriving DecidableEq, Repr

/-- JavaScript `v || d` on an optional number: `undefined` and `0` are
falsy (`data.maxTokens || 200`, server.js:186). -/
def jsOrNat (v : Option Nat) (d : Nat) : Nat :=
  match v with
  | none => d
  | some n => if n = 0 then d else n

/-- JavaScript `v || d` on an optional rational (`data.temperature || 0.7`,
server.js:187). -/
def jsOrRat (v : Option ℚ) (d : ℚ) : ℚ :=
  match v with
  | none => d
  | some q => if q = 0 then d else q

/-- JavaScript `v || d` on an optional string: `undefined` and `""` are
falsy (the x-filename header fallback of server.js:315). -/
def jsOrStr (v : Option String) (d : String) : String :=
  match v with
  | none => d
  | some s => if s = "" then d else s

/-- The streaming completion request built from a `chat` message
(server.js:181-190). -/
def chatCompletionRequest (data : ClientMsg) : CompletionRequest :=
  { prompt := data.message
    n_predict := jsOrNat data.maxTokens 200
    temperature := jsOrRat data.temperature (7 / 10)
    stream := true }

/-- The WebSocket message handler (server.js:175-235): the raw text is
`JSON.parse`d (`decode`; a parse failure throws and the catch block sends
an `error` frame).  A message whose `type` is `chat` opens a streaming
completion request (`upstream`; an `Except.error` models both a network
failure of `fetch` and the `!response.ok` throw of server.js:192-194, in
either case the catch block sends an `error` frame) and runs the stream
loop on the returned chunks.  Any other parsed message matches no branch
and nothing at all happens.  The handler consults no per-connection state:
there is no record of an in-flight generation and no cancellation flag. -/
def wsHandleMessage (jp : String → Option (Option String))
    (decode : String → Except String ClientMsg)
    (upstream : CompletionRequest → Except String (List String))
    (raw : String) : List WsEvent :=
  match decode raw with
  | Except.error m => [WsEvent.error m]
  | Except.ok data =>
      if data.type = "chat" then
        match upstream (chatCompletionRequest data) with
        | Except.error m => [WsEvent.error m]
        | Except.ok chunks => streamChunks jp chunks
      else []

/-- One event-loop interleaving of handler runs on a connection: the stream
loop of an in-flight `chat` generation suspends at an `await reader.read()`
after having forwarded the frames of the chunks `pre`, the queued message
`raw` is handled to completion, then the loop resumes with the chunks
`post`.  Because the loop body of server.js:197-226 reads only the upstream
reader and the handler mutates no shared relay state (there is no
per-connection flag the loop could observe), the resumed loop forwards the
frames of `post` unchanged. -/
def interleavedEvents (jp : String → Option (Option String))
    (decode : String → Except String ClientMsg)
    (upstream : CompletionRequest → Except String (List String))
    (pre : List String) (raw : String) (post : List String) : List WsEvent :=
  streamChunks jp pre ++ wsHandleMessage jp decode upstream raw ++ streamChunks jp post

/-- Test whether a frame is an `error` frame. -/
def isErrorEvent : WsEvent → Bool
  | WsEvent.error _ => true
  | _ => false

/-- An HTTP handler outcome: `res.json(body)` or
`res.status(500).json(error)`. -/
inductive ApiResponse (α : Type) where
  | ok (body : α)
  | serverError (message : String)
deriving DecidableEq, Repr

/-- Body of `POST /api/chat` (server.js:280): destructuring with defaults,
so a field is defaulted only when absent (unlike `||`). -/
structure ChatBody where
  message : Option String
  maxTokens : Option Nat := none
  temperature : Option ℚ := none
deriving DecidableEq, Repr

/-- The JSON body the completion endpoint answers with in non-streaming
mode, abstracted to the two fields the handler reads. -/
structure CompletionData where
  content : Option String := none
  tokens_used : Option Nat := none
deriving DecidableEq, Repr

/-- Body of the `POST /api/chat` response (server.js:301-304). -/
structure ChatResponseBody where
  response : Option String
  tokens_used : Option Nat
deriving DecidableEq, Repr

/-- Message of the TypeError thrown by `message.length` when `message` is
`undefined` (server.js:282), abstracted. -/
def jsUndefinedLengthError : String := "TypeError: cannot read length of undefined"

/-- The `POST /api/chat` handler (server.js:278-310): reading
`message.length` for the log line throws when `message` is absent, and the
catch block answers 500; otherwise one blocking completion request is
issued (`upstream`; `Except.error` models a thrown fetch/json failure,
answered with 500) and its `content` and `tokens_used` are passed
through. -/
def apiChat (upstream : CompletionRequest → Except String CompletionData)
    (body : ChatBody) : ApiResponse ChatResponseBody :=
  match body.message with
  | none => ApiResponse.serverError jsUndefinedLengthError
  | some msg =>
      match upstream { prompt := msg, n_predict := body.maxTokens.getD 200,
                       temperature := body.temperature.getD (7 / 10), stream := false } with
      | Except.error e => ApiResponse.serverError e
      | Except.ok data => ApiResponse.ok { response := data.content, tokens_used := data.tokens_used }

/-- Body of the `POST /api/upload` response (server.js:321-326). -/
structure UploadResponseBody where
  success : Bool
  filename : String
  size : Nat
  content : String
deriving DecidableEq, Repr

/-- The `POST /api/upload` handler (server.js:313-332): the raw body is
decoded to a string; the response carries its length and the first 1000
characters as a preview.  Nothing is written anywhere: the handler has no
side effect besides the response. -/
def apiUpload (xFilename : Option String) (body : String) : ApiResponse UploadResponseBody :=
  ApiResponse.ok
    { success := true
      filename := jsOrStr xFilename "upload.txt"
      size := body.length
      content := jsSubstringTo body 1000 }

/-- Entry of the `GET /api/models` response (server.js:345-350). -/
structure ModelEntry where
  name : String
  path : String
  size : Nat
  sizeMB : Nat
deriving DecidableEq, Repr

/-- Model of `Math.round(size / (1024 * 1024))` (server.js:349) for a
natural byte count: half-up rounding of `size / 2^20`, exact for every
size below `2^53` (where the double arithmetic of the source is exact). -/
def sizeMBOf (size : Nat) : Nat :=
  (2 * size + 1048576) / 2097152

/-- The entry pushed for one model file (server.js:345-350). -/
def mkModelEntry (file : String) (size : Nat) : ModelEntry :=
  { name := file
    path := "./../models/" ++ file
    size := size
    sizeMB := sizeMBOf size }

/-- The filesystem as the models handler sees it: `fs.existsSync`,
`fs.readdirSync` and `fs.statSync(...).size`, the latter two fallible. -/
structure FsModel where
  dirExists : Bool
  readdir : Except String (List String)
  statSize : String → Except String Nat

/-- The `files.forEach` body of server.js:342-351: each file ending in
`.gguf` is stat-ed and pushed; a thrown stat error propagates out of the
iteration. -/
def collectModels (fs : FsModel) : List String → Except String (List ModelEntry)
  | [] => Except.ok []
  | file :: rest =>
      if jsEndsWith file ".gguf" then
        match fs.statSize file with
        | Except.error e => Except.error e
        | Except.ok size =>
            match collectModels fs rest with
            | Except.error e => Except.error e
            | Except.ok ms => Except.ok (mkModelEntry file size :: ms)
      else collectModels fs rest

/-- The `GET /api/models` handler (server.js:335-360): a missing directory
yields the empty list; a thrown readdir or stat error is caught and
answered with a 500 error response. -/
def getModels (fs : FsModel) : ApiResponse (List ModelEntry) :=
  if fs.dirExists then
    match fs.readdir with
    | Except.error e => ApiResponse.serverError e
    | Except.ok files =>
        match collectModels fs files with
        | Except.error e => ApiResponse.serverError e
        | Except.ok models => ApiResponse.ok models
  else ApiResponse.ok []

/-- WebSocket readyState values. -/
inductive ReadyState where
  | CONNECTING
  | OPEN
  | CLOSING
  | CLOSED
deriving DecidableEq, Repr

/-- A registered connection as the heartbeat sees it: its registry key and
its readyState. -/
structure WsConn where
  clientId : String
  readyState : ReadyState
deriving DecidableEq, Repr

/-- One firing of the heartbeat timer of a connection (server.js:247-251): a
`ping` frame is sent when the socket is open, otherwise nothing; the
callback does not touch the connection registry. -/
def heartbeatTick (now : Nat) (ws : WsConn) : List WsEvent :=
  if ws.readyState = ReadyState.OPEN then [WsEvent.ping now] else []

/-- The liveness broadcast over a registry: the heartbeat timer of every
registered connection fires once.  Returns the pings sent (tagged with the
client id) and the registry afterwards — which the callbacks never
mutate. -/
def fireAllHeartbeats (now : Nat) (registry : List WsConn) : List (String × WsEvent) × List WsConn :=
  ((registry.map (fun c => (heartbeatTick now c).map (fun e => (c.clientId, e)))).flatten,
   registry)

/-- The WebSocket close handler (server.js:237-240): the connection is
deleted from the registry by its key. -/
def onCloseHandler (registry : List WsConn) (clientId : String) : List WsConn :=
  registry.filter (fun c => c.clientId != clientId)

/-- Concrete payload parse oracle used by witnesses: `ca` and `cb` parse to
objects whose `content` is `a` resp. `b`; everything else fails to parse. -/
def jp0 : String → Option (Option String) := fun s =>
  if s = "ca" then some (some "a")
  else if s = "cb" then some (some "b")
  else none

/-- Concrete `JSON.parse` of raw client messages used by witnesses. -/
def decode0 : String → Except String ClientMsg := fun raw =>
  if raw = "chatmsg" then Except.ok { type := "chat", message := "hi" }
  else if raw = "stopmsg" then Except.ok { type := "stop" }
  else Except.error "Unexpected token in JSON"

/-- Concrete streaming upstream used by witnesses: every request streams
two content payloads followed by the sentinel. -/
def upstream0 : CompletionRequest → Except String (List String) := fun _ =>
  Except.ok ["data: ca\n", "data: cb\ndata: [DONE]\n"]

/-- Concrete non-streaming completion stub used by witnesses
(the completion stub of the chat endpoint test of the spec). -/
def completion0 : CompletionRequest → Except String CompletionData := fun _ =>
  Except.ok { content := some "hello", tokens_used := some 3 }

/-- Concrete filesystem with two model files and one unrelated file. -/
def fsTwo : FsModel :=
  { dirExists := true
    readdir := Except.ok ["m1.gguf", "readme.txt", "m2.gguf"]
    statSize := fun f =>
      if f = "m1.gguf" then Except.ok 1800000
      else if f = "m2.gguf" then Except.ok 524288
      else Except.error "ENOENT" }

/-- Concrete filesystem whose directory listing succeeds but whose stat
calls throw. -/
def fsStatFails : FsModel :=
  { dirExists := true
    readdir := Except.ok ["m1.gguf"]
    statSize := fun _ => Except.error "EACCES" }

/-- Concrete filesystem with no models directory. -/
def fsNoDir : FsModel :=
  { dirExists := false
    readdir := Except.error "ENOENT"
    statSize := fun _ => Except.error "ENOENT" }

/-- Concrete filesystem whose directory listing itself throws. -/
def fsReaddirFails : FsModel :=
  { dirExists := true
    readdir := Except.error "EIO"
    statSize := fun _ => Except.error "EIO" }

/-- Concrete open connection. -/
def connA : WsConn := { clientId := "A", readyState := ReadyState.OPEN }

/-- Concrete already-closed connection. -/
def connB : WsConn := { clientId := "B", readyState := ReadyState.CLOSED }

/-- Concrete chunk sequence used by witnesses: one content payload per
chunk line, terminated by the sentinel. -/
def chunks0 : List String := ["data: ca\n", "data: cb\ndata: [DONE]\n"]

/-- Concrete stat results matching `fsTwo`. -/
def g0 : String → Nat := fun f => if f = "m1.gguf" then 1800000 else 524288

/-- Concrete upload body of 1001 characters. -/
def bigBody : String := String.mk (List.replicate 1001 'x')

/-- Processing lines in sequence concatenates their frames. -/
theorem streamLines_append (jp : String → Option (Option String)) (l₁ l₂ : List String) :
    streamLines jp (l₁ ++ l₂) = streamLines jp l₁ ++ streamLines jp l₂ := by
  simp [streamLines]

/-- The chunk loop is the line loop over all lines of all chunks. -/
theorem streamChunks_eq_streamLines (jp : String → Option (Option String)) :
    ∀ chunks : List String, streamChunks jp chunks = streamLines jp (allLines chunks)
  | [] => rfl
  | c :: cs => by
      have ih := streamChunks_eq_streamLines jp cs
      simp [streamChunks, allLines, handleChunk, streamLines_append] at *
      simpa [streamLines] using ih

/-- The line loop is determined by the stripped payloads of the data
lines: all other lines contribute nothing. -/
theorem streamLines_eq_payloadEvents (jp : String → Option (Option String)) :
    ∀ lines : List String, streamLines jp lines = payloadEvents jp (linePayloads lines)
  | [] => rfl
  | l :: ls => by
      have ih := streamLines_eq_payloadEvents jp ls
      by_cases h : jsStartsWith l "data: "
      · simp [streamLines, linePayloads, payloadEvents, handleLine, h] at *
        exact ih
      · simp [streamLines, linePayloads, payloadEvents, handleLine, h] at *
        exact ih

/-- The whole stream loop is determined by the stripped payloads of the
data lines of its chunks. -/
theorem streamChunks_eq_payloadEvents (jp : String → Option (Option String))
    (chunks : List String) :
    streamChunks jp chunks = payloadEvents jp (streamPayloads chunks) := by
  rw [streamChunks_eq_streamLines, streamPayloads, streamLines_eq_payloadEvents]

/-- Frames of concatenated payload sequences concatenate. -/
theorem payloadEvents_append (jp : String → Option (Option String)) (ps qs : List String) :
    payloadEvents jp (ps ++ qs) = payloadEvents jp ps ++ payloadEvents jp qs := by
  simp [payloadEvents]

/-- A non-sentinel payload contributes exactly the token frame of its
truthy content, or nothing. -/
theorem handleDataPayload_of_ne (jp : String → Option (Option String)) (p : String)
    (hp : p ≠ "[DONE]") :
    handleDataPayload jp p = (contentOf jp p).elim [] (fun c => [WsEvent.token c]) := by
  simp only [handleDataPayload, contentOf, if_neg hp]
  cases hjp : jp p with
  | none => simp
  | some o =>
      cases o with
      | none => simp
      | some c => by_cases hc : c = "" <;> simp [hc]

/-- A sentinel-free payload sequence contributes exactly the token frames
of its truthy contents, in order. -/
theorem payloadEvents_no_done (jp : String → Option (Option String)) :
    ∀ ps : List String, "[DONE]" ∉ ps →
      payloadEvents jp ps = (ps.filterMap (contentOf jp)).map WsEvent.token
  | [], _ => rfl
  | p :: rest, h => by
      have hp : p ≠ "[DONE]" := by
        intro he
        exact h (he ▸ List.mem_cons_self p rest)
      have ih := payloadEvents_no_done jp rest (fun hm => h (List.mem_cons_of_mem _ hm))
      simp only [payloadEvents, List.map_cons, List.flatten_cons, List.filterMap_cons]
      rw [handleDataPayload_of_ne jp p hp]
      cases hcp : contentOf jp p with
      | none => simpa [payloadEvents] using ih
      | some c => simpa [payloadEvents] using ih

/-- Token texts of concatenated frame lists concatenate. -/
theorem tokensOf_append : ∀ l₁ l₂ : List WsEvent, tokensOf (l₁ ++ l₂) = tokensOf l₁ ++ tokensOf l₂
  | [], _ => rfl
  | e :: rest, l₂ => by
      have ih := tokensOf_append rest l₂
      cases e <;> simp [tokensOf, ih]

/-- Token texts of a pure token frame list. -/
theorem tokensOf_map_token : ∀ l : List String, tokensOf (l.map WsEvent.token) = l
  | [] => rfl
  | t :: rest => by simp [tokensOf, tokensOf_map_token rest]

/-- A pure token frame list holds no done frame. -/
theorem count_done_map_token (l : List String) :
    (l.map WsEvent.token).count WsEvent.done = 0 := by
  rw [List.count_eq_zero]
  simp

/-- A frame list ending in a done frame has it as its last element. -/
theorem getLast_append_done (l : List WsEvent) :
    (l ++ [WsEvent.done]).getLast? = some WsEvent.done :=
  List.getLast?_concat l

/-- A line built from the marker and a payload passes the marker test. -/
theorem jsStartsWith_marker (p : String) : jsStartsWith ("data: " ++ p) "data: " = true := by
  simp only [jsStartsWith, String.data_append]
  have h : ("data: ".data ++ p.data).take "data: ".data.length = "data: ".data :=
    List.take_left _ _
  simp [h]

/-- Stripping the 6-character marker from such a line recovers the
payload. -/
theorem jsSubstringFrom_marker (p : String) : jsSubstringFrom ("data: " ++ p) 6 = p := by
  show String.mk (("data: ".data ++ p.data).drop 6) = p
  have h : ("data: ".data ++ p.data).drop "data: ".data.length = p.data := List.drop_left _ _
  simp only [show "data: ".data.length = 6 from rfl] at h
  rw [h]

/-- Handling a marked line is handling its payload. -/
theorem handleLine_marker (jp : String → Option (Option String)) (p : String) :
    handleLine jp ("data: " ++ p) = handleDataPayload jp p := by
  rw [handleLine, jsStartsWith_marker, if_pos rfl, jsSubstringFrom_marker]

/-- The sizeMB computation of server.js:349 is half-up rounding to the
nearest integer of the byte size over 1,048,576. -/
theorem sizeMBOf_eq_round (n : Nat) :
    ((sizeMBOf n : Nat) : ℤ) = round ((n : ℚ) / 1048576) := by
  rw [round_eq, sizeMBOf]
  have h : (n : ℚ) / 1048576 + 1 / 2 = ((2 * n + 1048576 : ℕ) : ℚ) / ((2097152 : ℕ) : ℚ) := by
    push_cast
    ring
  rw [h, Rat.floor_natCast_div_natCast]
  push_cast
  ring

/-- When every model file stats successfully, the collected entries are
exactly the model files in listing order. -/
theorem collectModels_ok (fs : FsModel) (g : String → Nat) :
    ∀ files : List String,
      (∀ f ∈ files, jsEndsWith f ".gguf" = true → fs.statSize f = Except.ok (g f)) →
      collectModels fs files
        = Except.ok ((files.filter (fun f => jsEndsWith f ".gguf")).map (fun f => mkModelEntry f (g f)))
  | [], _ => rfl
  | file :: rest, h => by
      have ih := collectModels_ok fs g rest (fun f hf hg => h f (List.mem_cons_of_mem _ hf) hg)
      by_cases hg : jsEndsWith file ".gguf" = true
      · have hstat := h file (List.mem_cons_self file rest) hg
        simp [collectModels, hg, hstat, ih, List.filter_cons]
      · simp [collectModels, hg, ih, List.filter_cons]

/-- When some model file fails to stat, the collection throws. -/
theorem collectModels_error_of_stat (fs : FsModel) :
    ∀ files : List String, ∀ f ∈ files, jsEndsWith f ".gguf" = true →
      (fs.statSize f).isOk = false →
      ∃ e, collectModels fs files = Except.error e
  | [], f, hf, _, _ => absurd hf (List.not_mem_nil f)
  | file :: rest, f, hf, hg, hstat => by
      by_cases hgf : jsEndsWith file ".gguf" = true
      · cases hsf : fs.statSize file with
        | error e => exact ⟨e, by simp [collectModels, hgf, hsf]⟩
        | ok n =>
            have hfr : f ∈ rest := by
              rcases List.mem_cons.mp hf with h1 | h1
              · exfalso
                rw [h1] at hstat
                rw [hsf] at hstat
                simp [Except.isOk, Except.toBool] at hstat
              · exact h1
            obtain ⟨e, he⟩ := collectModels_error_of_stat fs rest f hfr hg hstat
            exact ⟨e, by simp [collectModels, hgf, hsf, he]⟩
      · have hfr : f ∈ rest := by
          rcases List.mem_cons.mp hf with h1 | h1
          · exact absurd (h1 ▸ hg) hgf
          · exact h1
        obtain ⟨e, he⟩ := collectModels_error_of_stat fs rest f hfr hg hstat
        exact ⟨e, by simp [collectModels, hgf, he]⟩

/-- C1: for every sequence of upstream chunks whose data payloads are some
sentinel-free payloads `qs` terminated by the sentinel `[DONE]`, the
stream loop emits the token frames of exactly the content-carrying
payloads of `qs`, in their relative order, and exactly one `done` frame,
which is the final frame. -/
theorem relay_stream_order_single_done (jp : String → Option (Option String))
    (chunks qs : List String)
    (hsplit : streamPayloads chunks = qs ++ ["[DONE]"])
    (hqs : "[DONE]" ∉ qs) :
    tokensOf (streamChunks jp chunks) = qs.filterMap (contentOf jp)
    ∧ (streamChunks jp chunks).count WsEvent.done = 1
    ∧ (streamChunks jp chunks).getLast? = some WsEvent.done := by
  have hev : streamChunks jp chunks
      = (qs.filterMap (contentOf jp)).map WsEvent.token ++ [WsEvent.done] := by
    rw [streamChunks_eq_payloadEvents, hsplit, payloadEvents_append,
        payloadEvents_no_done jp qs hqs]
    rfl
  refine ⟨?_, ?_, ?_⟩
  · simp [hev, tokensOf_append, tokensOf_map_token, tokensOf]
  · rw [hev, List.count_append, count_done_map_token]
    simp
  · rw [hev]
    exact getLast_append_done _

/-- C1 witness: a concrete two-chunk stream with two content payloads and
the sentinel. -/
theorem relay_stream_order_single_done_witness :
    streamPayloads chunks0 = ["ca", "cb"] ++ ["[DONE]"]
    ∧ "[DONE]" ∉ (["ca", "cb"] : List String)
    ∧ (tokensOf (streamChunks jp0 chunks0) = (["ca", "cb"] : List String).filterMap (contentOf jp0)
       ∧ (streamChunks jp0 chunks0).count WsEvent.done = 1
       ∧ (streamChunks jp0 chunks0).getLast? = some WsEvent.done) :=
  ⟨by decide, by decide,
   relay_stream_order_single_done jp0 chunks0 ["ca", "cb"] (by decide) (by decide)⟩

/-- C2: evaluation of the handler at the failing input.  A `stop` message
matches no branch of the message handler: handling it emits nothing and
cancels nothing, and the in-flight generation goes on emitting token
frames after the stop was processed — here the token `b` and the `done`
arrive after the interleaved stop.  The claimed behaviour (no further
token frames after a processed stop) is absent from the code. -/
theorem stop_message_ignored_tokens_continue :
    wsHandleMessage jp0 decode0 upstream0 "stopmsg" = []
    ∧ interleavedEvents jp0 decode0 upstream0 ["data: ca\n"] "stopmsg" ["data: cb\ndata: [DONE]\n"]
        = [WsEvent.token "a", WsEvent.token "b", WsEvent.done] := by
  decide

/-- C3 counterexample: a second `chat` message handled while a generation
is in flight is neither ignored nor rejected: it contributes a full second
generation of frames (no error frame, not a no-op), interleaved into the
stream of the first. -/
theorem second_chat_not_ignored_cex :
    interleavedEvents jp0 decode0 upstream0 ["data: ca\n"] "chatmsg" ["data: cb\ndata: [DONE]\n"]
      = [WsEvent.token "a", WsEvent.token "a", WsEvent.token "b", WsEvent.done,
         WsEvent.token "b", WsEvent.done]
    ∧ wsHandleMessage jp0 decode0 upstream0 "chatmsg" ≠ []
    ∧ (wsHandleMessage jp0 decode0 upstream0 "chatmsg").all (fun e => !(isErrorEvent e)) = true := by
  decide

/-- C3 amended: the relay keeps no per-connection generation state, so a
second `chat` message arriving while one is in flight is processed exactly
like a first one: it starts a second generation whose frames are forwarded
in full at the interleaving point; the handler is total (no crash) and
touches no registry state. -/
theorem second_chat_starts_new_generation (jp : String → Option (Option String))
    (decode : String → Except String ClientMsg)
    (upstream : CompletionRequest → Except String (List String))
    (data : ClientMsg) (raw : String) (chunks pre post : List String)
    (hdec : decode raw = Except.ok data) (hty : data.type = "chat")
    (hup : upstream (chatCompletionRequest data) = Except.ok chunks) :
    interleavedEvents jp decode upstream pre raw post
      = streamChunks jp pre ++ streamChunks jp chunks ++ streamChunks jp post := by
  simp [interleavedEvents, wsHandleMessage, hdec, hty, hup]

/-- C3 witness: the concrete second chat of the counterexample run. -/
theorem second_chat_starts_new_generation_witness :
    decode0 "chatmsg" = Except.ok { type := "chat", message := "hi" }
    ∧ ({ type := "chat", message := "hi" } : ClientMsg).type = "chat"
    ∧ upstream0 (chatCompletionRequest { type := "chat", message := "hi" }) = Except.ok chunks0
    ∧ interleavedEvents jp0 decode0 upstream0 ["data: ca\n"] "chatmsg" ["data: cb\ndata: [DONE]\n"]
        = streamChunks jp0 ["data: ca\n"] ++ streamChunks jp0 chunks0
          ++ streamChunks jp0 ["data: cb\ndata: [DONE]\n"] :=
  ⟨rfl, rfl, rfl,
   second_chat_starts_new_generation jp0 decode0 upstream0
     { type := "chat", message := "hi" } "chatmsg" chunks0
     ["data: ca\n"] ["data: cb\ndata: [DONE]\n"] rfl rfl rfl⟩

/-- C6: a data line whose payload is neither the sentinel nor parseable is
silently skipped: it contributes no frame at all (no error, no done), and
the lines before and after it are processed exactly as without it. -/
theorem malformed_payload_skipped (jp : String → Option (Option String)) (p : String)
    (hne : p ≠ "[DONE]") (hbad : jp p = none) (pre post : List String) :
    handleLine jp ("data: " ++ p) = []
    ∧ streamLines jp (pre ++ ("data: " ++ p) :: post) = streamLines jp pre ++ streamLines jp post := by
  have h1 : handleLine jp ("data: " ++ p) = [] := by
    rw [handleLine_marker]
    simp [handleDataPayload, hne, hbad]
  refine ⟨h1, ?_⟩
  have h2 : pre ++ ("data: " ++ p) :: post = pre ++ (["data: " ++ p] ++ post) := by simp
  rw [h2, streamLines_append, streamLines_append]
  simp [streamLines, h1]

/-- C6 witness: a concrete malformed payload between a content payload and
the sentinel. -/
theorem malformed_payload_skipped_witness :
    ("oops" : String) ≠ "[DONE]"
    ∧ jp0 "oops" = none
    ∧ (handleLine jp0 ("data: " ++ "oops") = []
       ∧ streamLines jp0 (["data: ca"] ++ ("data: " ++ "oops") :: ["data: [DONE]"])
          = streamLines jp0 ["data: ca"] ++ streamLines jp0 ["data: [DONE]"]) :=
  ⟨by decide, by decide,
   malformed_payload_skipped jp0 "oops" (by decide) (by decide) ["data: ca"] ["data: [DONE]"]⟩

/-- C4: against a listing whose model-extension files are exactly `a` and
`b` among three files, the models endpoint answers with exactly those two
entries, and the sizeMB of each entry is its byte size over 1,048,576
rounded to the nearest integer (half up). -/
theorem models_two_gguf_entries (fs : FsModel) (files : List String) (a b : String)
    (g : String → Nat)
    (hdir : fs.dirExists = true) (hrd : fs.readdir = Except.ok files)
    (hfil : files.filter (fun f => jsEndsWith f ".gguf") = [a, b])
    (_hlen : files.length = 3)
    (hstat : ∀ f ∈ files, jsEndsWith f ".gguf" = true → fs.statSize f = Except.ok (g f)) :
    getModels fs = ApiResponse.ok [mkModelEntry a (g a), mkModelEntry b (g b)]
    ∧ ∀ e ∈ [mkModelEntry a (g a), mkModelEntry b (g b)],
        ((e.sizeMB : Nat) : ℤ) = round ((e.size : ℚ) / 1048576) := by
  have hc := collectModels_ok fs g files hstat
  rw [hfil] at hc
  constructor
  · simp [getModels, hdir, hrd, hc]
  · intro e he
    rcases List.mem_cons.mp he with h | h
    · rw [h]
      exact sizeMBOf_eq_round (g a)
    · rcases List.mem_cons.mp h with h2 | h2
      · rw [h2]
        exact sizeMBOf_eq_round (g b)
      · exact absurd h2 (List.not_mem_nil e)

/-- C4 witness: a concrete directory of two model files and one unrelated
file. -/
theorem models_two_gguf_entries_witness :
    fsTwo.dirExists = true
    ∧ fsTwo.readdir = Except.ok ["m1.gguf", "readme.txt", "m2.gguf"]
    ∧ ["m1.gguf", "readme.txt", "m2.gguf"].filter (fun f => jsEndsWith f ".gguf")
        = ["m1.gguf", "m2.gguf"]
    ∧ (["m1.gguf", "readme.txt", "m2.gguf"] : List String).length = 3
    ∧ (getModels fsTwo
         = ApiResponse.ok [mkModelEntry "m1.gguf" (g0 "m1.gguf"), mkModelEntry "m2.gguf" (g0 "m2.gguf")]
       ∧ ∀ e ∈ [mkModelEntry "m1.gguf" (g0 "m1.gguf"), mkModelEntry "m2.gguf" (g0 "m2.gguf")],
           ((e.sizeMB : Nat) : ℤ) = round ((e.size : ℚ) / 1048576)) :=
  ⟨rfl, rfl, by decide, rfl,
   models_two_gguf_entries fsTwo ["m1.gguf", "readme.txt", "m2.gguf"] "m1.gguf" "m2.gguf" g0
     rfl rfl (by decide) rfl
     (by
       intro f hf hg
       simp only [List.mem_cons, List.not_mem_nil, or_false] at hf
       rcases hf with h | h | h <;> subst h
       · rfl
       · exact absurd hg (by decide)
       · rfl)⟩

/-- C5 counterexample: when stat-ing the single model file throws, the
endpoint answers a 500 error response, not the empty list the claim
requires. -/
theorem models_io_error_returns_500_cex :
    getModels fsStatFails = ApiResponse.serverError "EACCES"
    ∧ getModels fsStatFails ≠ ApiResponse.ok [] := by
  decide

/-- C5 amended: only a missing models directory yields the empty list; a
thrown readdir error is answered with a 500 carrying that error, and a
thrown stat error on any model file is answered with a 500 as well. -/
theorem models_error_behavior (fs : FsModel) :
    (fs.dirExists = false → getModels fs = ApiResponse.ok [])
    ∧ (∀ e, fs.dirExists = true → fs.readdir = Except.error e →
        getModels fs = ApiResponse.serverError e)
    ∧ (∀ files f, fs.dirExists = true → fs.readdir = Except.ok files → f ∈ files →
        jsEndsWith f ".gguf" = true → (fs.statSize f).isOk = false →
        ∃ e, getModels fs = ApiResponse.serverError e) := by
  refine ⟨?_, ?_, ?_⟩
  · intro h
    simp [getModels, h]
  · intro e h1 h2
    simp [getModels, h1, h2]
  · intro files f h1 h2 hmem hg hstat
    obtain ⟨e, he⟩ := collectModels_error_of_stat fs files f hmem hg hstat
    exact ⟨e, by simp [getModels, h1, h2, he]⟩

/-- C5 witness: the three error regimes at concrete filesystems. -/
theorem models_error_behavior_witness :
    getModels fsNoDir = ApiResponse.ok []
    ∧ getModels fsReaddirFails = ApiResponse.serverError "EIO"
    ∧ (∃ e, getModels fsStatFails = ApiResponse.serverError e) :=
  ⟨(models_error_behavior fsNoDir).1 rfl,
   (models_error_behavior fsReaddirFails).2.1 "EIO" rfl rfl,
   (models_error_behavior fsStatFails).2.2 ["m1.gguf"] "m1.gguf" rfl rfl (by decide) (by decide)
     (by decide)⟩

/-- C7: the chat endpoint, asked with message hi, 10 max tokens and
temperature one half against a completion stub answering content hello
with 3 tokens used, answers exactly that content and token count. -/
theorem api_chat_stub_roundtrip :
    apiChat completion0 { message := some "hi", maxTokens := some 10, temperature := some (1 / 2) }
      = ApiResponse.ok { response := some "hello", tokens_used := some 3 } := by
  rfl

/-- C8 counterexample: against a registry of one open and one closed
connection, the heartbeat tick sends exactly one ping but the closed
connection stays registered — nothing in the heartbeat path removes it,
contrary to the claim. -/
theorem heartbeat_keeps_closed_conn_cex :
    ((fireAllHeartbeats 30000 [connA, connB]).1).length = 1
    ∧ (fireAllHeartbeats 30000 [connA, connB]).2 = [connA, connB]
    ∧ connB ∈ (fireAllHeartbeats 30000 [connA, connB]).2 := by
  decide

/-- C8 amended: the liveness tick over one open and one closed connection
sends exactly one ping, to the open one, and leaves the registry
unchanged; the closed connection is removed only by the close handler. -/
theorem heartbeat_pings_open_only (now : Nat) (a b : WsConn)
    (ha : a.readyState = ReadyState.OPEN) (hb : b.readyState = ReadyState.CLOSED)
    (hne : a.clientId ≠ b.clientId) :
    (fireAllHeartbeats now [a, b]).1 = [(a.clientId, WsEvent.ping now)]
    ∧ (fireAllHeartbeats now [a, b]).2 = [a, b]
    ∧ onCloseHandler [a, b] b.clientId = [a] := by
  refine ⟨?_, rfl, ?_⟩
  · simp [fireAllHeartbeats, heartbeatTick, ha, hb]
  · have h1 : (a.clientId != b.clientId) = true := bne_iff_ne.mpr hne
    simp [onCloseHandler, List.filter, h1]

/-- C8 witness: the concrete open and closed connections. -/
theorem heartbeat_pings_open_only_witness :
    connA.readyState = ReadyState.OPEN
    ∧ connB.readyState = ReadyState.CLOSED
    ∧ connA.clientId ≠ connB.clientId
    ∧ ((fireAllHeartbeats 30000 [connA, connB]).1 = [(connA.clientId, WsEvent.ping 30000)]
       ∧ (fireAllHeartbeats 30000 [connA, connB]).2 = [connA, connB]
       ∧ onCloseHandler [connA, connB] connB.clientId = [connA]) :=
  ⟨rfl, rfl, by decide, heartbeat_pings_open_only 30000 connA connB rfl rfl (by decide)⟩

/-- C9: a chat request without a message field is answered with a 500
error response (the thrown length access is caught, the process does not
crash), and an unparseable WebSocket message is answered with an error
frame carrying the parse error. -/
theorem invalid_request_structured_error
    (upstream : CompletionRequest → Except String CompletionData)
    (mt : Option Nat) (t : Option ℚ)
    (jp : String → Option (Option String)) (decode : String → Except String ClientMsg)
    (up2 : CompletionRequest → Except String (List String)) (raw m : String)
    (hdec : decode raw = Except.error m) :
    apiChat upstream { message := none, maxTokens := mt, temperature := t }
      = ApiResponse.serverError jsUndefinedLengthError
    ∧ wsHandleMessage jp decode up2 raw = [WsEvent.error m] := by
  constructor
  · rfl
  · simp [wsHandleMessage, hdec]

/-- C9 witness: a concrete unparseable WebSocket message and a concrete
message-less chat body. -/
theorem invalid_request_structured_error_witness :
    decode0 "garbage" = Except.error "Unexpected token in JSON"
    ∧ (apiChat completion0 { message := none, maxTokens := none, temperature := none }
         = ApiResponse.serverError jsUndefinedLengthError
       ∧ wsHandleMessage jp0 decode0 upstream0 "garbage"
         = [WsEvent.error "Unexpected token in JSON"]) :=
  ⟨rfl,
   invalid_request_structured_error completion0 none none jp0 decode0 upstream0 "garbage"
     "Unexpected token in JSON" rfl⟩

/-- C10: every upload is answered with success, the character length of
the decoded body, and a preview of its first thousand characters (so of
length the minimum of 1000 and the body length); a body longer than a
thousand characters is never echoed back in full.  The handler persists
nothing: its only effect is this response. -/
theorem upload_preview_truncation (fn : Option String) (body : String) :
    ∃ r, apiUpload fn body = ApiResponse.ok r
      ∧ r.success = true
      ∧ r.size = body.length
      ∧ r.content.data = body.data.take 1000
      ∧ r.content.length = min 1000 body.length
      ∧ (1000 < body.length → r.content ≠ body) := by
  refine ⟨_, rfl, rfl, rfl, rfl, ?_, ?_⟩
  · show (body.data.take 1000).length = min 1000 body.data.length
    exact List.length_take 1000 body.data
  · intro h hc
    have hlen : (body.data.take 1000).length = body.data.length := congrArg String.length hc
    rw [List.length_take] at hlen
    have h2 : 1000 < body.data.length := h
    omega

/-- C10 witness: a concrete 1001-character body is truncated and not
echoed back. -/
theorem upload_preview_truncation_witness :
    1000 < bigBody.length
    ∧ ∃ r, apiUpload (some "f.txt") bigBody = ApiResponse.ok r
        ∧ r.success = true
        ∧ r.size = bigBody.length
        ∧ r.content.data = bigBody.data.take 1000
        ∧ r.content.length = min 1000 bigBody.length
        ∧ r.content ≠ bigBody := by
  have hlen : 1000 < bigBody.length := by
    show 1000 < (List.replicate 1001 'x').length
    rw [List.length_replicate]
    decide
  refine ⟨hlen, ?_⟩
  obtain ⟨r, h1, h2, h3, h4, h5, h6⟩ := upload_preview_truncation (some "f.txt") bigBody
  exact ⟨r, h1, h2, h3, h4, h5, h6 hlen⟩
